import Mathlib

/-!
# Product catalogue client: a shallow embedding

The development embeds the four source modules of the client

* `services/productService.js` (the API client),
* `components/ProductForm.jsx` (the create form),
* `components/ProductList.jsx` (the list view),
* `App.jsx` (the root coordinator),

and proves the behavioural claims made about them.

## Modelling conventions

* A JavaScript string is a Lean `String`.  `String.prototype.trim` is `jsTrim`, which strips
  the ECMAScript `WhiteSpace` and `LineTerminator` code points from both ends.  The source
  reads the `length` of a string only to compare it with 0, where counting code points and
  counting UTF-16 code units agree.
* A promise is represented by its outcome, an `Except JsError α`: `.ok v` for a promise that
  resolves with `v`, `.error e` for one that rejects with `e`.
* An event handler is embedded as the list of actions it performs, in program order.  State
  setters (`setName`, `setError`, ...) are actions, and the state of a component after a
  handler ran is obtained by applying the setter actions in order (`State.applyAll`).  Calls
  to collaborators (`createProduct`, `fetchProducts`, `onProductCreated`, `console.error`)
  are actions too, so that "is called exactly once" is a statement about the action list.
* An `async` handler is cut at its single `await`: the part that runs before the promise
  settles (`...Sync`) and the part that runs once it settled (`...Settled`).  React commits
  the setter calls of one such part together when the part ends, so the states between two
  parts are the ones a user or a test can observe.
* A view is the element tree returned by the component function for the committed state.
* A JavaScript Number that holds an integer is the integer it holds (`Int`, `Nat`).  Where
  the source computes with it, the rounding of the Number is explicit (`jsAddOne`); where
  it prints it, the conversion to text is an argument (`numberToString`).
* The page is a transition system (`App.step`) over the events it can receive.  Handlers
  run whenever their event arrives: a submit is accepted while an earlier create call is
  pending, and several creates may settle before React renders `App` again.
-/

/-! ## JavaScript values -/

/-- The code points removed by `String.prototype.trim`: ECMAScript `WhiteSpace`
(TAB, VT, FF, SP, NBSP, ZWNBSP and the Unicode category Zs) and `LineTerminator`
(LF, CR, LS, PS). -/
def isJsWhiteSpace (c : Char) : Bool :=
  let n := c.toNat
  n == 0x09 || n == 0x0A || n == 0x0B || n == 0x0C || n == 0x0D || n == 0x20 || n == 0xA0 ||
  n == 0x1680 || (0x2000 ≤ n && n ≤ 0x200A) || n == 0x2028 || n == 0x2029 || n == 0x202F ||
  n == 0x205F || n == 0x3000 || n == 0xFEFF

/-- Trimming on the list of characters: white space is dropped at the front and at the back. -/
def jsTrimChars (cs : List Char) : List Char :=
  ((cs.dropWhile isJsWhiteSpace).reverse.dropWhile isJsWhiteSpace).reverse

/-- The method `String.prototype.trim`. -/
def jsTrim (s : String) : String := String.mk (jsTrimChars s.data)

/-- The operator `!` applied to a string: only the empty string is falsy. -/
def jsNot (s : String) : Bool := s == ""

/-- Truthiness of a value that is either `null` or a string, as tested by `if (error)` and
`error && ...`: `null` and the empty string are falsy. -/
def jsTruthy : Option String → Bool
  | none => false
  | some s => s != ""

/-- The expression `prev + 1` on a JavaScript Number that holds a non-negative integer.
Below `2^53` the sum is exact.  From `2^53` to `2^54` the Numbers are the even integers and
the sum lies halfway between two of them: it is rounded to the one with the even
significand, which is `prev` itself when `prev / 2` is even and `prev + 2` otherwise.  From
`2^54` on the Numbers are at least 4 apart and the sum is rounded back to `prev`.  In
particular `2^53 + 1` is `2^53`. -/
def jsAddOne (prev : Nat) : Nat :=
  if prev < 2 ^ 53 then prev + 1
  else if prev < 2 ^ 54 then (if (prev / 2) % 2 = 0 then prev else prev + 2)
  else prev

/-- The entity `Product` as the backend returns it: `id`, `name`, `createdAt`, `updatedAt`.
The field `id` is the integer value held by the JavaScript Number. -/
structure Product where
  id : Int
  name : String
  createdAt : String
  updatedAt : String
deriving DecidableEq

/-- A value thrown by a collaborator or carried by a rejected promise: an optional message
(`new Error(msg)`) and, when the transport got a response, its status and its error body
(`err.response.status`, `err.response.data.error`). -/
structure JsError where
  message : Option String
  status : Option Nat
  body : Option String
deriving DecidableEq

/-- The argument `{ name: ... }` that the form passes to `createProduct`. -/
structure ProductInput where
  name : String
deriving DecidableEq

/-! ## `components/ProductForm.jsx` -/

namespace ProductForm

/-- The three `useState` cells of the component (lines 11-13). -/
structure State where
  name : String
  error : Option String
  isSubmitting : Bool
deriving DecidableEq

/-- Initial values of the `useState` cells: the empty string, `null`, `false`. -/
def init : State := { name := "", error := none, isSubmitting := false }

/-- What the handlers of the component do: the three state setters, `e.preventDefault()`,
the call of the service, the call of the `onProductCreated` property and `console.error`. -/
inductive Action where
  | preventDefault
  | setName (v : String)
  | setError (e : Option String)
  | setIsSubmitting (b : Bool)
  | createProduct (input : ProductInput)
  | onProductCreated (created : Product)
  | consoleError (label : String) (err : JsError)
deriving DecidableEq

/-- Effect of one action on the state cells; only the setters change them. -/
def State.apply (s : State) : Action → State
  | .setName v => { s with name := v }
  | .setError e => { s with error := e }
  | .setIsSubmitting b => { s with isSubmitting := b }
  | _ => s

/-- Effect of a list of actions, applied in program order. -/
def State.applyAll (s : State) (acts : List Action) : State :=
  acts.foldl State.apply s

/-- The arguments of the `createProduct` calls among the actions, in order. -/
def createCalls (acts : List Action) : List ProductInput :=
  acts.filterMap fun a => match a with
    | .createProduct input => some input
    | _ => none

/-- The arguments of the `onProductCreated` calls among the actions, in order. -/
def callbackCalls (acts : List Action) : List Product :=
  acts.filterMap fun a => match a with
    | .onProductCreated created => some created
    | _ => none

/-- The values passed to `setError` among the actions, in order. -/
def errorSets (acts : List Action) : List (Option String) :=
  acts.filterMap fun a => match a with
    | .setError e => some e
    | _ => none

/-- The message of line 32. -/
def createFailedMessage : String := "Failed to create product. Please try again."

/-- The property `onProductCreated`: absent (`undefined`) or a function of the created
product, which returns or throws. -/
abbrev Callback := Option (Product → Except JsError Unit)

/-- The lines 32, 33 and 35: the `catch` block followed by the `finally` block. -/
def catchFinally (err : JsError) : List Action :=
  [.setError (some createFailedMessage), .consoleError "Failed to create product:" err,
   .setIsSubmitting false]

/-- Lines 16-26 of `handleSubmit`, up to the `await`: the actions performed with the `name`
of the current render, and the argument of the pending `createProduct` call when the
handler reached it (`none` when the validation of line 19 returned). -/
def handleSubmitSync (name : String) : List Action × Option ProductInput :=
  if jsNot name || (jsTrim name).length == 0 then
    ([.preventDefault], none)
  else
    ([.preventDefault, .setIsSubmitting true, .setError none,
      .createProduct { name := jsTrim name }], some { name := jsTrim name })

/-- Lines 26-36 of `handleSubmit`, from the moment the awaited promise settled. -/
def handleSubmitSettled (onProductCreated : Callback) : Except JsError Product → List Action
  | .ok createdProduct =>
    .setName "" ::
      match onProductCreated with
      | none => [.setIsSubmitting false]
      | some callback =>
        .onProductCreated createdProduct ::
          match callback createdProduct with
          | .ok _ => [.setIsSubmitting false]
          | .error err => catchFinally err
  | .error err => catchFinally err

/-- The handler `handleSubmit` run to completion against a service `createProduct`. -/
def handleSubmit (onProductCreated : Callback)
    (createProduct : ProductInput → Except JsError Product) (name : String) : List Action :=
  match handleSubmitSync name with
  | (acts, none) => acts
  | (acts, some input) => acts ++ handleSubmitSettled onProductCreated (createProduct input)

/-- The handler `handleNameChange` (lines 39-45) for a change event with `e.target.value = v`,
in a render whose `error` cell holds `error`. -/
def handleNameChange (error : Option String) (v : String) : List Action :=
  .setName v :: (if jsTruthy error then [.setError none] else [])

/-- The parts of the rendered form that depend on the state (lines 55-67). -/
structure View where
  inputValue : String
  inputDisabled : Bool
  errorBox : Option String
  buttonDisabled : Bool
  buttonLabel : String
deriving DecidableEq

/-- The JSX of lines 47-70. -/
def render (s : State) : View :=
  { inputValue := s.name
    inputDisabled := s.isSubmitting
    errorBox := if jsTruthy s.error then s.error else none
    buttonDisabled := s.isSubmitting
    buttonLabel := if s.isSubmitting then "Creating..." else "Create Product" }

end ProductForm

/-! ## `components/ProductList.jsx` -/

/-- A node of the rendered tree: a text child, a numeric child (`{product.id}`), or an
element with its tag, its React `key` and its children. -/
inductive VNode where
  | text (s : String)
  | num (n : Int)
  | elem (tag : String) (key : Option Int) (children : List VNode)

mutual
/-- The `li` elements of a tree (the elements with role `listitem`), in document order. -/
def VNode.items : VNode → List VNode
  | .text _ => []
  | .num _ => []
  | .elem tag key children =>
    if tag = "li" then [.elem tag key children] else VNode.itemsList children
/-- The `li` elements of a list of sibling trees. -/
def VNode.itemsList : List VNode → List VNode
  | [] => []
  | c :: cs => c.items ++ VNode.itemsList cs
end

mutual
/-- The text a tree shows (DOM `textContent`).  A numeric child shows what JavaScript prints
for the Number; this conversion is a built-in of the language and is taken as the argument
`numberToString` (it yields the decimal digits for an integer up to `2^53` in absolute
value, and other digits or an exponent form beyond). -/
def VNode.textContent (numberToString : Int → String) : VNode → String
  | .text s => s
  | .num n => numberToString n
  | .elem _ _ children => VNode.textContentList numberToString children
/-- The text of a list of sibling trees. -/
def VNode.textContentList (numberToString : Int → String) : List VNode → String
  | [] => ""
  | c :: cs => c.textContent numberToString ++ VNode.textContentList numberToString cs
end

namespace ProductList

/-- The three `useState` cells of the component (lines 9-11). -/
structure State where
  products : List Product
  loading : Bool
  error : Option String
deriving DecidableEq

/-- Initial values of the `useState` cells: `[]`, `true`, `null`. -/
def init : State := { products := [], loading := true, error := none }

/-- What `loadProducts` does: the three state setters, the call of the service and
`console.error`. -/
inductive Action where
  | setProducts (data : List Product)
  | setLoading (b : Bool)
  | setError (e : Option String)
  | fetchProducts
  | consoleError (label : String) (err : JsError)
deriving DecidableEq

/-- Effect of one action on the state cells; only the setters change them. -/
def State.apply (s : State) : Action → State
  | .setProducts data => { s with products := data }
  | .setLoading b => { s with loading := b }
  | .setError e => { s with error := e }
  | _ => s

/-- Effect of a list of actions, applied in program order. -/
def State.applyAll (s : State) (acts : List Action) : State :=
  acts.foldl State.apply s

/-- Number of `fetchProducts()` calls among the actions. -/
def fetchCalls (acts : List Action) : Nat :=
  acts.countP fun a => a == .fetchProducts

/-- The message of line 24. -/
def loadFailedMessage : String := "Error loading products. Please try again later."

/-- Lines 18-21 of `loadProducts`, up to the `await`. -/
def loadProductsSync : List Action :=
  [.setLoading true, .setError none, .fetchProducts]

/-- Lines 21-28 of `loadProducts`, from the moment the awaited promise settled. -/
def loadProductsSettled : Except JsError (List Product) → List Action
  | .ok data => [.setProducts data, .setLoading false]
  | .error err =>
    [.setError (some loadFailedMessage), .consoleError "Failed to fetch products:" err,
     .setLoading false]

/-- The function `loadProducts` run to completion against a service `fetchProducts`. -/
def loadProducts (fetchProducts : Unit → Except JsError (List Product)) : List Action :=
  loadProductsSync ++ loadProductsSettled (fetchProducts ())

/-- The `li` of lines 48-50 for one product. -/
def renderItem (product : Product) : VNode :=
  .elem "li" (some product.id) [.text "ID: ", .num product.id, .text " - ", .text product.name]

/-- The four `return` statements of the component (lines 31-54). -/
def render (s : State) : VNode :=
  if s.loading then
    .elem "div" none [.text "Loading products..."]
  else if jsTruthy s.error then
    .elem "div" none [.text (s.error.getD "")]
  else if s.products.length == 0 then
    .elem "div" none [.text "No products found."]
  else
    .elem "div" none
      [.elem "h2" none [.text "Product List"],
       .elem "ul" none (s.products.map renderItem)]

/-- The four `return` statements of the component, by name: lines 32, 36, 40 and 43-53. -/
inductive Branch where
  | loading
  | error
  | empty
  | populated
deriving DecidableEq

/-- The `return` statement the component function reaches: the tests of lines 31, 35 and 39,
in this order. -/
def branch (s : State) : Branch :=
  if s.loading then .loading
  else if jsTruthy s.error then .error
  else if s.products.length == 0 then .empty
  else .populated

/-- The JSX of each `return` statement, for the state cells of the render. -/
def view (s : State) : Branch → VNode
  | .loading => .elem "div" none [.text "Loading products..."]
  | .error => .elem "div" none [.text (s.error.getD "")]
  | .empty => .elem "div" none [.text "No products found."]
  | .populated =>
    .elem "div" none
      [.elem "h2" none [.text "Product List"],
       .elem "ul" none (s.products.map renderItem)]

end ProductList

/-! ## `services/productService.js` -/

namespace productService

/-- The part of an axios response that the service reads (`data`), with the HTTP status. -/
structure Response (δ : Type) where
  data : δ
  status : Nat
deriving DecidableEq

/-- The function `fetchProducts` (lines 16-24).  `axiosGet url w` is `axios.get(url)` issued
when the outside world (network, backend, call records) is `w`: it yields the outcome of the
returned promise and the world after the request. -/
def fetchProducts {ω δ ε : Type} (axiosGet : String → ω → Except ε (Response δ) × ω)
    (w : ω) : Except ε δ × ω :=
  match axiosGet "/api/products" w with
  | (.ok response, w1) => (.ok response.data, w1)
  | (.error error, w1) => (.error error, w1)

/-- The function `createProduct` (lines 33-41).  `axiosPost url body w` is
`axios.post(url, body)` issued when the outside world is `w`. -/
def createProduct {ω β δ ε : Type} (axiosPost : String → β → ω → Except ε (Response δ) × ω)
    (product : β) (w : ω) : Except ε δ × ω :=
  match axiosPost "/api/products" product w with
  | (.ok response, w1) => (.ok response.data, w1)
  | (.error error, w1) => (.error error, w1)

/-- A request as a recording transport sees it: method, URL and, for a POST, the body. -/
inductive Request (β : Type) where
  | get (url : String)
  | post (url : String) (body : β)
deriving DecidableEq

/-- A transport whose world is the list of requests received so far and which answers a GET
with `reply`: the mocked `axios.get` of the test suite. -/
def recordingGet {β δ ε : Type} (reply : Except ε (Response δ)) (url : String)
    (w : List (Request β)) : Except ε (Response δ) × List (Request β) :=
  (reply, w ++ [.get url])

/-- A transport whose world is the list of requests received so far and which answers a POST
with `reply`: the mocked `axios.post` of the test suite. -/
def recordingPost {β δ ε : Type} (reply : Except ε (Response δ)) (url : String) (body : β)
    (w : List (Request β)) : Except ε (Response δ) × List (Request β) :=
  (reply, w ++ [.post url body])

end productService

/-! ## `App.jsx` -/

namespace App

/-- An entry of the record of what the mounted components did: an action of the form, an
action of the `ProductList` instance mounted under the given `key`. -/
inductive Action where
  | form (a : ProductForm.Action)
  | list (key : Nat) (a : ProductList.Action)
deriving DecidableEq

/-- The state of the page: the `useState` cell `refreshKey` of `App` (a JavaScript Number
holding a non-negative integer), the state of the form, the number of `createProduct`
promises that have not settled yet, the key under which the mounted `ProductList` instance
was created with the state of that instance, and the record of the actions performed so
far. -/
structure State where
  refreshKey : Nat
  form : ProductForm.State
  pending : Nat
  listKey : Nat
  list : ProductList.State
  log : List Action
deriving DecidableEq

/-- The callback `handleProductCreated` (lines 13-16): it ignores its argument and calls
`setRefreshKey(prev => prev + 1)`; the result is the new value of the cell. -/
def handleProductCreated (_created : Product) (prev : Nat) : Nat := jsAddOne prev

/-- The property `onProductCreated={handleProductCreated}` as the form sees it: a supplied
function that returns normally. -/
def onProductCreated : ProductForm.Callback := some fun _ => .ok ()

/-- Mounting a `ProductList` instance under the current key: fresh state cells, then the
effect of lines 13-15 starts `loadProducts`, which runs up to its `await`. -/
def mountProductList (s : State) : State :=
  { s with
    listKey := s.refreshKey
    list := ProductList.init.applyAll ProductList.loadProductsSync
    log := s.log ++ ProductList.loadProductsSync.map (Action.list s.refreshKey) }

/-- First render of `App`: `refreshKey` is `0`, form and list are mounted, no create call is
pending. -/
def mount : State :=
  mountProductList
    { refreshKey := 0, form := ProductForm.init, pending := 0, listKey := 0,
      list := ProductList.init, log := [] }

/-- What happens to a mounted page: a change event on the input; a submit event on the
form; a pending `createProduct` promise settles with the given outcome; React renders
`App` again; the pending `fetchProducts` promise of the mounted list settles with the given
outcome. -/
inductive Event where
  | change (v : String)
  | submit
  | createSettled (outcome : Except JsError Product)
  | render
  | fetchSettled (outcome : Except JsError (List Product))

/-- One event.
* A change event runs `handleNameChange`.
* A submit event runs `handleSubmit` up to its `await`; the handler has no guard on
  `isSubmitting`, so a submit is accepted while an earlier create call is pending, and each
  accepted submit adds a pending promise.
* A settled create runs the rest of `handleSubmit` for one pending promise; every
  `onProductCreated` call it makes runs `handleProductCreated` on the `refreshKey` cell.
* A render compares the `key` of the `ProductList` element with the key of the mounted
  instance and replaces the instance by a freshly mounted one when they differ; several
  creates may settle before React renders.
* A settled fetch is delivered to the mounted instance while its `loadProducts` is waiting
  (`loading` is `true` from line 19 to line 27). -/
def step (s : State) : Event → State
  | .change v =>
    let acts := ProductForm.handleNameChange s.form.error v
    { s with form := s.form.applyAll acts, log := s.log ++ acts.map Action.form }
  | .submit =>
    match ProductForm.handleSubmitSync s.form.name with
    | (acts, none) =>
      { s with form := s.form.applyAll acts, log := s.log ++ acts.map Action.form }
    | (acts, some _) =>
      { s with form := s.form.applyAll acts, pending := s.pending + 1
               log := s.log ++ acts.map Action.form }
  | .createSettled outcome =>
    if s.pending = 0 then s
    else
      let acts := ProductForm.handleSubmitSettled onProductCreated outcome
      { s with form := s.form.applyAll acts, pending := s.pending - 1
               refreshKey := (ProductForm.callbackCalls acts).foldl
                 (fun k created => handleProductCreated created k) s.refreshKey
               log := s.log ++ acts.map Action.form }
  | .render =>
    if s.refreshKey = s.listKey then s else mountProductList s
  | .fetchSettled outcome =>
    if s.list.loading then
      let acts := ProductList.loadProductsSettled outcome
      { s with list := s.list.applyAll acts
               log := s.log ++ acts.map (Action.list s.listKey) }
    else s

/-- The page after a sequence of events, starting from the first render. -/
def run (evs : List Event) : State := evs.foldl step mount

/-- Number of `fetchProducts()` calls in the record. -/
def fetchCalls (s : State) : Nat :=
  s.log.countP fun a => match a with
    | .list _ .fetchProducts => true
    | _ => false

/-- Number of `fetchProducts()` calls made by the `ProductList` instance mounted under
`key`. -/
def fetchCallsFor (s : State) (key : Nat) : Nat :=
  s.log.countP fun a => a == .list key .fetchProducts

/-- Number of `onProductCreated(...)` calls in the record. -/
def notifications (s : State) : Nat :=
  s.log.countP fun a => match a with
    | .form (.onProductCreated _) => true
    | _ => false

/-- One creation as the user performs it: type the name, submit, the create call resolves
with `created`, React renders; then the fetch of the remounted list settles with
`fetched`. -/
def creation (name : String) (created : Product)
    (fetched : Except JsError (List Product)) : List Event :=
  [.change name, .submit, .createSettled (.ok created), .render, .fetchSettled fetched]

/-- The initial display (the first fetch settles with `first`) followed by the creations
`cs`, each given by the typed name, the created product and the outcome of the fetch it
triggers. -/
def scenario (first : Except JsError (List Product))
    (cs : List (String × Product × Except JsError (List Product))) : List Event :=
  .fetchSettled first :: cs.flatMap fun c => creation c.1 c.2.1 c.2.2

/-- The outcome of the last fetch of a scenario. -/
def lastFetch (first : Except JsError (List Product))
    (cs : List (String × Product × Except JsError (List Product))) :
    Except JsError (List Product) :=
  match cs.getLast? with
  | none => first
  | some c => c.2.2

end App

/-! ## Facts about trimming and the validation of line 19 -/

/-- Trimming removes everything exactly when every character is white space. -/
theorem jsTrim_length_eq_zero_iff (s : String) :
    (jsTrim s).length = 0 ↔ ∀ c ∈ s.data, isJsWhiteSpace c = true := by
  have hlen : (jsTrim s).length = (jsTrimChars s.data).length := rfl
  rw [hlen, List.length_eq_zero]
  unfold jsTrimChars
  rw [List.reverse_eq_nil_iff, List.dropWhile_eq_nil_iff]
  constructor
  · intro h c hc
    by_cases hd : s.data.dropWhile isJsWhiteSpace = []
    · exact (List.dropWhile_eq_nil_iff.mp hd) c hc
    · exfalso
      have hhead := List.head_dropWhile_not isJsWhiteSpace s.data hd
      have hmem : (s.data.dropWhile isJsWhiteSpace).head hd ∈
          (s.data.dropWhile isJsWhiteSpace).reverse :=
        List.mem_reverse.mpr (List.head_mem hd)
      rw [h _ hmem] at hhead
      exact Bool.noConfusion hhead
  · intro h c hc
    have hc1 : c ∈ s.data.dropWhile isJsWhiteSpace := List.mem_reverse.mp hc
    exact h c ((List.dropWhile_sublist isJsWhiteSpace).subset hc1)

/-- A name whose trimmed value is not empty is itself not the empty string. -/
theorem jsNot_eq_false_of_trim (name : String) (h : (jsTrim name).length ≠ 0) :
    jsNot name = false := by
  unfold jsNot
  by_cases hn : name = ""
  · subst hn
    exact absurd (by decide) h
  · simpa using hn

namespace ProductForm

/-- The validation of line 19 returns for a blank name. -/
theorem handleSubmitSync_blank (name : String) (h : (jsTrim name).length = 0) :
    handleSubmitSync name = ([.preventDefault], none) := by
  simp [handleSubmitSync, h]

/-- The validation of line 19 lets a name with a non-empty trimmed value through. -/
theorem handleSubmitSync_nonblank (name : String) (h : (jsTrim name).length ≠ 0) :
    handleSubmitSync name =
      ([.preventDefault, .setIsSubmitting true, .setError none,
        .createProduct { name := jsTrim name }], some { name := jsTrim name }) := by
  simp [handleSubmitSync, h, jsNot_eq_false_of_trim name h]

/-- The handler run to completion on a blank name performs `e.preventDefault()` only. -/
theorem handleSubmit_blank (onProductCreated : Callback)
    (createProduct : ProductInput → Except JsError Product) (name : String)
    (h : (jsTrim name).length = 0) :
    handleSubmit onProductCreated createProduct name = [.preventDefault] := by
  simp [handleSubmit, handleSubmitSync_blank name h]

/-- The handler run to completion on a name with a non-empty trimmed value. -/
theorem handleSubmit_nonblank (onProductCreated : Callback)
    (createProduct : ProductInput → Except JsError Product) (name : String)
    (h : (jsTrim name).length ≠ 0) :
    handleSubmit onProductCreated createProduct name =
      [.preventDefault, .setIsSubmitting true, .setError none,
        .createProduct { name := jsTrim name }] ++
      handleSubmitSettled onProductCreated (createProduct { name := jsTrim name }) := by
  simp [handleSubmit, handleSubmitSync_nonblank name h]

/-- C1. Submitting a form whose name is empty or white space only (its trimmed value has
length 0) is a no-op: `createProduct` is not called, `onProductCreated` is not called,
`setError` is not called, and the state cells `name`, `error`, `isSubmitting` are unchanged. -/
theorem handleSubmit_blank_is_noop (onProductCreated : Callback)
    (createProduct : ProductInput → Except JsError Product) (s : State)
    (h : (jsTrim s.name).length = 0) :
    createCalls (handleSubmit onProductCreated createProduct s.name) = [] ∧
    callbackCalls (handleSubmit onProductCreated createProduct s.name) = [] ∧
    errorSets (handleSubmit onProductCreated createProduct s.name) = [] ∧
    s.applyAll (handleSubmit onProductCreated createProduct s.name) = s := by
  rw [handleSubmit_blank onProductCreated createProduct s.name h]
  exact ⟨rfl, rfl, rfl, rfl⟩

/-- C1 at a concrete input: a form holding three blanks and an earlier error. -/
theorem handleSubmit_blank_is_noop_witness :
    (jsTrim (State.mk "   " (some "earlier") false).name).length = 0 ∧
    createCalls (handleSubmit (some fun _ => .ok ()) (fun i => .ok ⟨1, i.name, "", ""⟩)
      (State.mk "   " (some "earlier") false).name) = [] ∧
    callbackCalls (handleSubmit (some fun _ => .ok ()) (fun i => .ok ⟨1, i.name, "", ""⟩)
      (State.mk "   " (some "earlier") false).name) = [] ∧
    errorSets (handleSubmit (some fun _ => .ok ()) (fun i => .ok ⟨1, i.name, "", ""⟩)
      (State.mk "   " (some "earlier") false).name) = [] ∧
    (State.mk "   " (some "earlier") false).applyAll
      (handleSubmit (some fun _ => .ok ()) (fun i => .ok ⟨1, i.name, "", ""⟩)
        (State.mk "   " (some "earlier") false).name) = State.mk "   " (some "earlier") false :=
  ⟨by decide, handleSubmit_blank_is_noop _ _ _ (by decide)⟩

/-- C2. For a name whose trimmed value is not empty and a `createProduct` that resolves with
`P`, the form (a) calls `createProduct` exactly once, with `{ name: name.trim() }`, (b) ends
with the input cell equal to the empty string, and (c) calls the supplied `onProductCreated`
exactly once, with `P`; this holds whether the callback returns or throws. -/
theorem handleSubmit_success (callback : Product → Except JsError Unit)
    (createProduct : ProductInput → Except JsError Product) (s : State) (P : Product)
    (hname : (jsTrim s.name).length ≠ 0)
    (hok : createProduct { name := jsTrim s.name } = .ok P) :
    createCalls (handleSubmit (some callback) createProduct s.name)
      = [{ name := jsTrim s.name }] ∧
    (s.applyAll (handleSubmit (some callback) createProduct s.name)).name = "" ∧
    (render (s.applyAll (handleSubmit (some callback) createProduct s.name))).inputValue = "" ∧
    callbackCalls (handleSubmit (some callback) createProduct s.name) = [P] := by
  rw [handleSubmit_nonblank _ createProduct s.name hname, hok]
  cases hcb : callback P <;>
    simp [handleSubmitSettled, hcb, catchFinally, createCalls, callbackCalls, State.applyAll,
      State.apply, render]

/-- C2 at the input of the test suite: the user typed `New Product`. -/
theorem handleSubmit_success_witness :
    (jsTrim (State.mk "New Product" none false).name).length ≠ 0 ∧
    createCalls (handleSubmit (some fun _ => .ok ())
      (fun i => .ok ⟨1, i.name, "2025-11-17T12:00:00", "2025-11-17T12:00:00"⟩)
      (State.mk "New Product" none false).name)
      = [{ name := jsTrim (State.mk "New Product" none false).name }] ∧
    ((State.mk "New Product" none false).applyAll (handleSubmit (some fun _ => .ok ())
      (fun i => .ok ⟨1, i.name, "2025-11-17T12:00:00", "2025-11-17T12:00:00"⟩)
      (State.mk "New Product" none false).name)).name = "" ∧
    (render ((State.mk "New Product" none false).applyAll (handleSubmit (some fun _ => .ok ())
      (fun i => .ok ⟨1, i.name, "2025-11-17T12:00:00", "2025-11-17T12:00:00"⟩)
      (State.mk "New Product" none false).name))).inputValue = "" ∧
    callbackCalls (handleSubmit (some fun _ => .ok ())
      (fun i => .ok ⟨1, i.name, "2025-11-17T12:00:00", "2025-11-17T12:00:00"⟩)
      (State.mk "New Product" none false).name)
      = [⟨1, "New Product", "2025-11-17T12:00:00", "2025-11-17T12:00:00"⟩] :=
  ⟨by decide, handleSubmit_success _ _ _ _ (by decide) rfl⟩

/-- C3. For a name whose trimmed value is not empty, when `createProduct` rejects with any
error, the form ends with the input cell holding the value it had before the submit, the
error cell holding `Failed to create product. Please try again.` (and shown), and
`onProductCreated` not called; this holds with or without a supplied callback. -/
theorem handleSubmit_failure (onProductCreated : Callback)
    (createProduct : ProductInput → Except JsError Product) (s : State) (err : JsError)
    (hname : (jsTrim s.name).length ≠ 0)
    (herr : createProduct { name := jsTrim s.name } = .error err) :
    (s.applyAll (handleSubmit onProductCreated createProduct s.name)).name = s.name ∧
    (s.applyAll (handleSubmit onProductCreated createProduct s.name)).error
      = some "Failed to create product. Please try again." ∧
    (render (s.applyAll (handleSubmit onProductCreated createProduct s.name))).errorBox
      = some "Failed to create product. Please try again." ∧
    callbackCalls (handleSubmit onProductCreated createProduct s.name) = [] := by
  rw [handleSubmit_nonblank _ createProduct s.name hname, herr]
  refine ⟨rfl, rfl, ?_, rfl⟩
  simp [handleSubmitSettled, catchFinally, State.applyAll, State.apply, render,
    createFailedMessage, jsTruthy]

/-- C3 at an input of the test suite: `  Test Product ` is rejected with status 400. -/
theorem handleSubmit_failure_witness :
    (jsTrim (State.mk "  Test Product " none false).name).length ≠ 0 ∧
    ((State.mk "  Test Product " none false).applyAll (handleSubmit (some fun _ => .ok ())
      (fun _ => .error ⟨none, some 400, some "Product name cannot be null or empty"⟩)
      (State.mk "  Test Product " none false).name)).name
      = (State.mk "  Test Product " none false).name ∧
    ((State.mk "  Test Product " none false).applyAll (handleSubmit (some fun _ => .ok ())
      (fun _ => .error ⟨none, some 400, some "Product name cannot be null or empty"⟩)
      (State.mk "  Test Product " none false).name)).error
      = some "Failed to create product. Please try again." ∧
    (render ((State.mk "  Test Product " none false).applyAll
      (handleSubmit (some fun _ => .ok ())
      (fun _ => .error ⟨none, some 400, some "Product name cannot be null or empty"⟩)
      (State.mk "  Test Product " none false).name))).errorBox
      = some "Failed to create product. Please try again." ∧
    callbackCalls (handleSubmit (some fun _ => .ok ())
      (fun _ => .error ⟨none, some 400, some "Product name cannot be null or empty"⟩)
      (State.mk "  Test Product " none false).name) = [] :=
  ⟨by decide, handleSubmit_failure _ _ _ _ (by decide) rfl⟩

end ProductForm

/-! ## The list view -/

namespace ProductList

/-- The items of a list of rendered products are these rendered products. -/
theorem itemsList_map_renderItem (ps : List Product) :
    VNode.itemsList (ps.map renderItem) = ps.map renderItem := by
  induction ps with
  | nil => rfl
  | cons p ps ih =>
    simp only [List.map_cons, VNode.itemsList, ih]
    simp [renderItem, VNode.items]

/-- The text of a rendered product is `ID: <id> - <name>`, the id as JavaScript prints it. -/
theorem textContent_renderItem (numberToString : Int → String) (p : Product) :
    (renderItem p).textContent numberToString
      = "ID: " ++ numberToString p.id ++ " - " ++ p.name := by
  simp [renderItem, VNode.textContent, VNode.textContentList, String.append_assoc]

/-- The state cells after `loadProducts` ran to completion on a resolved fetch. -/
theorem applyAll_loadProducts_ok (s : State) (data : List Product) :
    s.applyAll (loadProducts fun _ => .ok data)
      = { products := data, loading := false, error := none } := rfl

/-- The state cells after `loadProducts` ran to completion on a rejected fetch. -/
theorem applyAll_loadProducts_error (s : State) (err : JsError) :
    s.applyAll (loadProducts fun _ => .error err)
      = { products := s.products, loading := false, error := some loadFailedMessage } := rfl

/-- The items of the populated view (lines 43-53) are the rendered products. -/
theorem items_populated (ps : List Product) :
    (VNode.elem "div" none
      [.elem "h2" none [.text "Product List"], .elem "ul" none (ps.map renderItem)]).items
      = ps.map renderItem := by
  simp [VNode.items, VNode.itemsList, itemsList_map_renderItem]

/-- Outside the loading and error states the view shows one item per product held. -/
theorem items_render (s : State) (hl : s.loading = false) (he : jsTruthy s.error = false) :
    (render s).items = s.products.map renderItem := by
  unfold render
  simp only [hl, he, Bool.false_eq_true, if_false]
  cases hp : s.products with
  | nil => simp [VNode.items, VNode.itemsList]
  | cons p ps =>
    simp only [List.length_cons, Nat.succ_ne_zero, beq_iff_eq, if_false]
    exact items_populated (p :: ps)

/-- C4. After a fetch that resolved with the sequence `data` (empty or not), from any prior
state, the view holds exactly one `li` per product: the items are the products rendered in
the order returned, as many as there are products, and the i-th item reads
`ID: <id> - <name>` for the i-th product, the id as JavaScript prints the Number
(`numberToString`).  When JavaScript prints the ids of `data` as their decimal digits, which
it does for every integer up to `2^53` in absolute value, the i-th item reads `ID: `, the
decimal digits of the id, ` - ` and the name. -/
theorem render_one_item_per_product (numberToString : Int → String) (s : State)
    (data : List Product) :
    (render (s.applyAll (loadProducts fun _ => .ok data))).items = data.map renderItem ∧
    (render (s.applyAll (loadProducts fun _ => .ok data))).items.length = data.length ∧
    (render (s.applyAll (loadProducts fun _ => .ok data))).items.map
        (VNode.textContent numberToString)
      = data.map (fun p => "ID: " ++ numberToString p.id ++ " - " ++ p.name) ∧
    ((∀ n : Int, n.natAbs ≤ 2 ^ 53 → numberToString n = toString n) →
      (∀ p ∈ data, p.id.natAbs ≤ 2 ^ 53) →
      (render (s.applyAll (loadProducts fun _ => .ok data))).items.map
          (VNode.textContent numberToString)
        = data.map (fun p => "ID: " ++ toString p.id ++ " - " ++ p.name)) := by
  have h := items_render (s.applyAll (loadProducts fun _ => .ok data)) rfl rfl
  rw [applyAll_loadProducts_ok] at h ⊢
  have htext : (data.map renderItem).map (VNode.textContent numberToString)
      = data.map (fun p => "ID: " ++ numberToString p.id ++ " - " ++ p.name) := by
    rw [List.map_map]
    apply List.map_congr_left
    intro p _
    exact textContent_renderItem numberToString p
  rw [h]
  refine ⟨rfl, List.length_map _ _, htext, ?_⟩
  intro hprint hsafe
  rw [htext]
  apply List.map_congr_left
  intro p hp
  rw [hprint p.id (hsafe p hp)]

/-- C4 at the products of the test suite, with ids 1 and 2 printed as decimal digits. -/
theorem render_one_item_per_product_witness :
    (∀ n : Int, n.natAbs ≤ 2 ^ 53 → (fun m : Int => toString m) n = toString n) ∧
    (∀ p ∈ [(⟨1, "Product 1", "2025-11-17T10:00:00", "2025-11-17T10:00:00"⟩ : Product),
        ⟨2, "Product 2", "2025-11-17T11:00:00", "2025-11-17T11:00:00"⟩],
      p.id.natAbs ≤ 2 ^ 53) ∧
    (render (init.applyAll (loadProducts fun _ => .ok
        [⟨1, "Product 1", "2025-11-17T10:00:00", "2025-11-17T10:00:00"⟩,
         ⟨2, "Product 2", "2025-11-17T11:00:00", "2025-11-17T11:00:00"⟩]))).items.map
        (VNode.textContent fun m : Int => toString m)
      = ([⟨1, "Product 1", "2025-11-17T10:00:00", "2025-11-17T10:00:00"⟩,
          ⟨2, "Product 2", "2025-11-17T11:00:00", "2025-11-17T11:00:00"⟩] :
          List Product).map (fun p => "ID: " ++ toString p.id ++ " - " ++ p.name) :=
  ⟨fun _ _ => rfl, by decide,
   (render_one_item_per_product (fun m : Int => toString m) init
      [⟨1, "Product 1", "2025-11-17T10:00:00", "2025-11-17T10:00:00"⟩,
       ⟨2, "Product 2", "2025-11-17T11:00:00", "2025-11-17T11:00:00"⟩]).2.2.2
      (fun _ _ => rfl) (by decide)⟩

/-- C5. After a fetch that rejected with any error, from any prior state (also one that
holds products of an earlier fetch), the view is the single `div` with the text
`Error loading products. Please try again later.` and holds no `li` at all. -/
theorem render_failed_fetch (numberToString : Int → String) (s : State) (err : JsError) :
    render (s.applyAll (loadProducts fun _ => .error err))
      = .elem "div" none [.text "Error loading products. Please try again later."] ∧
    (render (s.applyAll (loadProducts fun _ => .error err))).textContent numberToString
      = "Error loading products. Please try again later." ∧
    (render (s.applyAll (loadProducts fun _ => .error err))).items = [] := by
  rw [applyAll_loadProducts_error]
  have h : render { products := s.products, loading := false, error := some loadFailedMessage }
      = .elem "div" none [.text "Error loading products. Please try again later."] := by
    simp [render, jsTruthy, loadFailedMessage]
  rw [h]
  exact ⟨rfl, rfl, rfl⟩

end ProductList

/-! ## The root coordinator -/

/-- Below `2^53` the sum `prev + 1` is exact. -/
theorem jsAddOne_of_lt (prev : Nat) (h : prev < 2 ^ 53) : jsAddOne prev = prev + 1 := by
  unfold jsAddOne
  rw [if_pos h]

/-- The sum `prev + 1` is never below `prev`. -/
theorem le_jsAddOne (prev : Nat) : prev ≤ jsAddOne prev := by
  unfold jsAddOne
  split_ifs <;> omega

/-- Counting up from 0 stops at `2^53`. -/
theorem jsAddOne_min (n : Nat) : jsAddOne (min n (2 ^ 53)) = min (n + 1) (2 ^ 53) := by
  by_cases h : n < 2 ^ 53
  · rw [Nat.min_eq_left (Nat.le_of_lt h), Nat.min_eq_left h, jsAddOne_of_lt n h]
  · have h1 : 2 ^ 53 ≤ n := Nat.le_of_not_lt h
    rw [Nat.min_eq_right h1, Nat.min_eq_right (Nat.le_succ_of_le h1)]
    decide

namespace App

/-- A change event touches the form only. -/
theorem step_change (s : State) (v : String) :
    (step s (.change v)).refreshKey = s.refreshKey ∧
    (step s (.change v)).listKey = s.listKey ∧
    (step s (.change v)).list = s.list ∧
    fetchCalls (step s (.change v)) = fetchCalls s ∧
    notifications (step s (.change v)) = notifications s ∧
    (∀ key, fetchCallsFor (step s (.change v)) key = fetchCallsFor s key) ∧
    (step s (.change v)).form.name = v := by
  cases he : jsTruthy s.form.error <;>
    simp [step, ProductForm.handleNameChange, he, fetchCalls, notifications, fetchCallsFor,
      List.countP_append, List.countP_cons, ProductForm.State.applyAll, ProductForm.State.apply]

/-- A settled fetch touches the mounted list only and records neither a fetch nor a
notification. -/
theorem step_fetchSettled (s : State) (outcome : Except JsError (List Product)) :
    (step s (.fetchSettled outcome)).refreshKey = s.refreshKey ∧
    (step s (.fetchSettled outcome)).listKey = s.listKey ∧
    fetchCalls (step s (.fetchSettled outcome)) = fetchCalls s ∧
    notifications (step s (.fetchSettled outcome)) = notifications s ∧
    (∀ key, fetchCallsFor (step s (.fetchSettled outcome)) key = fetchCallsFor s key) := by
  cases hl : s.list.loading <;> cases outcome <;>
    simp [step, hl, ProductList.loadProductsSettled, fetchCalls, notifications, fetchCallsFor,
      List.countP_append, List.countP_cons]

/-- A settled fetch is delivered to a list that waits for it. -/
theorem step_fetchSettled_list (s : State) (outcome : Except JsError (List Product))
    (hl : s.list.loading = true) :
    (step s (.fetchSettled outcome)).list
      = s.list.applyAll (ProductList.loadProductsSettled outcome) := by
  simp [step, hl]

/-- A submit event touches the form and the number of pending creates only, and records
neither a fetch nor a notification. -/
theorem step_submit (s : State) :
    (step s .submit).refreshKey = s.refreshKey ∧
    (step s .submit).listKey = s.listKey ∧
    (step s .submit).list = s.list ∧
    fetchCalls (step s .submit) = fetchCalls s ∧
    notifications (step s .submit) = notifications s ∧
    (∀ key, fetchCallsFor (step s .submit) key = fetchCallsFor s key) := by
  by_cases h : (jsTrim s.form.name).length = 0
  · simp [step, ProductForm.handleSubmitSync_blank _ h, fetchCalls, notifications,
      fetchCallsFor, List.countP_append, List.countP_cons]
  · simp [step, ProductForm.handleSubmitSync_nonblank _ h, fetchCalls, notifications,
      fetchCallsFor, List.countP_append, List.countP_cons]

/-- A submit event with a non-blank name adds a pending create. -/
theorem step_submit_pending (s : State) (h : (jsTrim s.form.name).length ≠ 0) :
    (step s .submit).pending = s.pending + 1 := by
  simp [step, ProductForm.handleSubmitSync_nonblank _ h]

/-- A settled create leaves the mounted list alone and records no fetch; a resolved one
records one notification and runs `prev + 1` on the key, a rejected one records no
notification and leaves the key alone. -/
theorem step_createSettled (s : State) (outcome : Except JsError Product) :
    (step s (.createSettled outcome)).listKey = s.listKey ∧
    (step s (.createSettled outcome)).list = s.list ∧
    fetchCalls (step s (.createSettled outcome)) = fetchCalls s ∧
    (∀ key, fetchCallsFor (step s (.createSettled outcome)) key = fetchCallsFor s key) ∧
    (((step s (.createSettled outcome)).refreshKey = s.refreshKey ∧
        notifications (step s (.createSettled outcome)) = notifications s) ∨
     ((step s (.createSettled outcome)).refreshKey = jsAddOne s.refreshKey ∧
        notifications (step s (.createSettled outcome)) = notifications s + 1)) := by
  by_cases hp : s.pending = 0
  · simp [step, hp]
  · cases outcome with
    | error err =>
      simp [step, hp, ProductForm.handleSubmitSettled, ProductForm.catchFinally,
        ProductForm.callbackCalls, fetchCalls, notifications, fetchCallsFor,
        List.countP_append, List.countP_cons]
    | ok created =>
      simp [step, hp, ProductForm.handleSubmitSettled, onProductCreated,
        ProductForm.callbackCalls, handleProductCreated, fetchCalls, notifications,
        fetchCallsFor, List.countP_append, List.countP_cons]

/-- A create that resolves while it is pending runs `prev + 1` on the key. -/
theorem step_createSettled_ok (s : State) (created : Product) (hp : s.pending ≠ 0) :
    (step s (.createSettled (.ok created))).refreshKey = jsAddOne s.refreshKey := by
  simp [step, hp, ProductForm.handleSubmitSettled, onProductCreated,
    ProductForm.callbackCalls, handleProductCreated]

/-- A render with an unchanged key changes nothing. -/
theorem step_render_same (s : State) (h : s.refreshKey = s.listKey) :
    step s .render = s := by
  simp [step, h]

/-- A render with a changed key mounts a fresh list under the new key, which starts its one
fetch. -/
theorem step_render_changed (s : State) (h : s.refreshKey ≠ s.listKey) :
    (step s .render).refreshKey = s.refreshKey ∧
    (step s .render).listKey = s.refreshKey ∧
    (step s .render).list = ProductList.init.applyAll ProductList.loadProductsSync ∧
    fetchCalls (step s .render) = fetchCalls s + 1 ∧
    notifications (step s .render) = notifications s ∧
    (∀ key, fetchCallsFor (step s .render) key
      = fetchCallsFor s key + if key = s.refreshKey then 1 else 0) := by
  refine ⟨?_, ?_, ?_, ?_, ?_, ?_⟩
  · simp [step, h, mountProductList]
  · simp [step, h, mountProductList]
  · simp [step, h, mountProductList]
  · simp [step, h, mountProductList, ProductList.loadProductsSync, fetchCalls,
      List.countP_append, List.countP_cons]
  · simp [step, h, mountProductList, ProductList.loadProductsSync, notifications,
      List.countP_append, List.countP_cons]
  · intro key
    by_cases hk : key = s.refreshKey
    · subst hk
      simp [step, h, mountProductList, ProductList.loadProductsSync, fetchCallsFor,
        List.countP_append, List.countP_cons]
    · have hk2 : ¬ (s.refreshKey = key) := fun e => hk e.symm
      simp [step, h, mountProductList, ProductList.loadProductsSync, fetchCallsFor,
        List.countP_append, List.countP_cons, hk, hk2]

end App

namespace App

/-- Every event keeps these facts: the key of the mounted list is at most the counter, at
most one fetch per key up to it was made, the mounted list made exactly one, and no list
was mounted under a larger key. -/
theorem step_fetch_facts (s : State) (ev : Event)
    (h : s.listKey ≤ s.refreshKey ∧ fetchCalls s ≤ s.listKey + 1 ∧
      fetchCallsFor s s.listKey = 1 ∧ (∀ key, fetchCallsFor s key ≤ 1) ∧
      (∀ key, s.listKey < key → fetchCallsFor s key = 0)) :
    (step s ev).listKey ≤ (step s ev).refreshKey ∧
    fetchCalls (step s ev) ≤ (step s ev).listKey + 1 ∧
    fetchCallsFor (step s ev) (step s ev).listKey = 1 ∧
    (∀ key, fetchCallsFor (step s ev) key ≤ 1) ∧
    (∀ key, (step s ev).listKey < key → fetchCallsFor (step s ev) key = 0) := by
  obtain ⟨h1, h2, h3, h4, h5⟩ := h
  cases ev with
  | change v =>
    obtain ⟨c1, c2, _, c4, _, c6, _⟩ := step_change s v
    simp only [c1, c2, c4, c6]
    exact ⟨h1, h2, h3, h4, h5⟩
  | fetchSettled outcome =>
    obtain ⟨c1, c2, c4, _, c6⟩ := step_fetchSettled s outcome
    simp only [c1, c2, c4, c6]
    exact ⟨h1, h2, h3, h4, h5⟩
  | submit =>
    obtain ⟨c1, c2, _, c4, _, c6⟩ := step_submit s
    simp only [c1, c2, c4, c6]
    exact ⟨h1, h2, h3, h4, h5⟩
  | createSettled outcome =>
    obtain ⟨c2, _, c4, c6, c7⟩ := step_createSettled s outcome
    simp only [c2, c4, c6]
    refine ⟨?_, h2, h3, h4, h5⟩
    rcases c7 with ⟨c1, _⟩ | ⟨c1, _⟩
    · rw [c1]; exact h1
    · rw [c1]; exact Nat.le_trans h1 (le_jsAddOne _)
  | render =>
    by_cases hk : s.refreshKey = s.listKey
    · rw [step_render_same s hk]
      exact ⟨h1, h2, h3, h4, h5⟩
    · obtain ⟨c1, c2, _, c4, _, c6⟩ := step_render_changed s hk
      have hlt : s.listKey < s.refreshKey := Nat.lt_of_le_of_ne h1 (fun e => hk e.symm)
      have h0 := h5 s.refreshKey hlt
      simp only [c1, c2, c4, c6]
      refine ⟨Nat.le_refl _, by omega, by simp [h0], ?_, ?_⟩
      · intro key
        by_cases hkey : key = s.refreshKey
        · subst hkey
          simp [h0]
        · simp only [hkey, if_false, Nat.add_zero]
          exact h4 key
      · intro key hkey
        have hne : key ≠ s.refreshKey := Nat.ne_of_gt hkey
        simp only [hne, if_false, Nat.add_zero]
        exact h5 key (Nat.lt_trans hlt hkey)

/-- The facts of `step_fetch_facts` hold after the first render. -/
theorem mount_fetch_facts :
    mount.listKey ≤ mount.refreshKey ∧ fetchCalls mount ≤ mount.listKey + 1 ∧
    fetchCallsFor mount mount.listKey = 1 ∧ (∀ key, fetchCallsFor mount key ≤ 1) ∧
    (∀ key, mount.listKey < key → fetchCallsFor mount key = 0) := by
  have hfor : ∀ key, fetchCallsFor mount key = if key = 0 then 1 else 0 := by
    intro key
    by_cases hk : key = 0
    · subst hk; decide
    · have hk2 : ¬ (0 = key) := fun e => hk e.symm
      simp [fetchCallsFor, mount, mountProductList, ProductList.loadProductsSync,
        List.countP_cons, hk, hk2]
  refine ⟨Nat.le_refl _, by decide, by decide, ?_, ?_⟩
  · intro key
    rw [hfor]
    split_ifs <;> omega
  · intro key hkey
    have hk : key ≠ 0 := by
      intro e
      rw [e] at hkey
      exact absurd hkey (by decide)
    rw [hfor, if_neg hk]

/-- The facts of `step_fetch_facts` hold after every sequence of events, from any state in
which they hold. -/
theorem foldl_step_fetch_facts (evs : List Event) (s : State)
    (h : s.listKey ≤ s.refreshKey ∧ fetchCalls s ≤ s.listKey + 1 ∧
      fetchCallsFor s s.listKey = 1 ∧ (∀ key, fetchCallsFor s key ≤ 1) ∧
      (∀ key, s.listKey < key → fetchCallsFor s key = 0)) :
    (evs.foldl step s).listKey ≤ (evs.foldl step s).refreshKey ∧
    fetchCalls (evs.foldl step s) ≤ (evs.foldl step s).listKey + 1 ∧
    fetchCallsFor (evs.foldl step s) (evs.foldl step s).listKey = 1 ∧
    (∀ key, fetchCallsFor (evs.foldl step s) key ≤ 1) ∧
    (∀ key, (evs.foldl step s).listKey < key → fetchCallsFor (evs.foldl step s) key = 0) := by
  induction evs generalizing s with
  | nil => exact h
  | cons ev evs ih => exact ih (step s ev) (step_fetch_facts s ev h)

/-- Every event keeps the counter equal to the number of notifications, capped at `2^53`. -/
theorem step_counter (s : State) (ev : Event)
    (h : s.refreshKey = min (notifications s) (2 ^ 53)) :
    (step s ev).refreshKey = min (notifications (step s ev)) (2 ^ 53) := by
  cases ev with
  | change v =>
    obtain ⟨c1, _, _, _, c5, _, _⟩ := step_change s v
    rw [c1, c5]; exact h
  | fetchSettled outcome =>
    obtain ⟨c1, _, _, c5, _⟩ := step_fetchSettled s outcome
    rw [c1, c5]; exact h
  | submit =>
    obtain ⟨c1, _, _, _, c5, _⟩ := step_submit s
    rw [c1, c5]; exact h
  | createSettled outcome =>
    obtain ⟨_, _, _, _, c7⟩ := step_createSettled s outcome
    rcases c7 with ⟨c1, c5⟩ | ⟨c1, c5⟩
    · rw [c1, c5]; exact h
    · rw [c1, c5, h]; exact jsAddOne_min _
  | render =>
    by_cases hk : s.refreshKey = s.listKey
    · rw [step_render_same s hk]; exact h
    · obtain ⟨c1, _, _, _, c5, _⟩ := step_render_changed s hk
      rw [c1, c5]; exact h

/-- After every sequence of events the counter is the number of notifications, capped at
`2^53`. -/
theorem foldl_step_counter (evs : List Event) (s : State)
    (h : s.refreshKey = min (notifications s) (2 ^ 53)) :
    (evs.foldl step s).refreshKey = min (notifications (evs.foldl step s)) (2 ^ 53) := by
  induction evs generalizing s with
  | nil => exact h
  | cons ev evs ih => exact ih (step s ev) (step_counter s ev h)

/-- One creation with a non-blank name, from a state whose counter is below `2^53` and is the
key of the mounted list: the counter and the fetch count go up by one, the new list is
mounted under the new counter and shows what a fresh instance shows after its fetch settled
with `fetched`. -/
theorem foldl_step_creation (s : State) (name : String) (created : Product)
    (fetched : Except JsError (List Product)) (h : (jsTrim name).length ≠ 0)
    (hk : s.refreshKey < 2 ^ 53) (hl : s.listKey = s.refreshKey) :
    ((creation name created fetched).foldl step s).refreshKey = s.refreshKey + 1 ∧
    ((creation name created fetched).foldl step s).listKey = s.refreshKey + 1 ∧
    fetchCalls ((creation name created fetched).foldl step s) = fetchCalls s + 1 ∧
    ((creation name created fetched).foldl step s).list
      = ProductList.init.applyAll (ProductList.loadProducts fun _ => fetched) := by
  obtain ⟨a1, a2, _, a4, _, _, a7⟩ := step_change s name
  have hname : (jsTrim (step s (.change name)).form.name).length ≠ 0 := by rw [a7]; exact h
  obtain ⟨b1, b2, _, b4, _, _⟩ := step_submit (step s (.change name))
  have hpend : (step (step s (.change name)) .submit).pending ≠ 0 := by
    rw [step_submit_pending _ hname]
    exact Nat.succ_ne_zero _
  obtain ⟨c2, _, c4, _, _⟩ :=
    step_createSettled (step (step s (.change name)) .submit) (.ok created)
  have c1 := step_createSettled_ok (step (step s (.change name)) .submit) created hpend
  rw [b1, a1, jsAddOne_of_lt _ hk] at c1
  rw [b2, a2, hl] at c2
  rw [b4, a4] at c4
  have hne : (step (step (step s (.change name)) .submit) (.createSettled (.ok created))).refreshKey
      ≠ (step (step (step s (.change name)) .submit) (.createSettled (.ok created))).listKey := by
    rw [c1, c2]
    exact Nat.succ_ne_self _
  obtain ⟨d1, d2, d3, d4, _, _⟩ := step_render_changed _ hne
  rw [c1] at d1 d2
  rw [c4] at d4
  have hload : (step (step (step (step s (.change name)) .submit)
      (.createSettled (.ok created))) .render).list.loading = true := by
    rw [d3]; rfl
  obtain ⟨e1, e2, e4, _, _⟩ := step_fetchSettled
    (step (step (step (step s (.change name)) .submit) (.createSettled (.ok created))) .render)
    fetched
  have e3 := step_fetchSettled_list _ fetched hload
  simp only [creation, List.foldl_cons, List.foldl_nil]
  refine ⟨by rw [e1, d1], by rw [e2, d2], by rw [e4, d4], ?_⟩
  rw [e3, d3]
  simp [ProductList.loadProducts, ProductList.State.applyAll]

/-- The initial display followed by `cs` creations with non-blank names, at most `2^53` of
them: the counter counts the creations, one more fetch than creations was issued, and the
list shows what a fresh instance shows after the last fetch. -/
theorem run_scenario (first : Except JsError (List Product))
    (cs : List (String × Product × Except JsError (List Product)))
    (h : ∀ c ∈ cs, (jsTrim c.1).length ≠ 0) (hlen : cs.length ≤ 2 ^ 53) :
    (run (scenario first cs)).refreshKey = cs.length ∧
    (run (scenario first cs)).listKey = cs.length ∧
    fetchCalls (run (scenario first cs)) = cs.length + 1 ∧
    (run (scenario first cs)).list
      = ProductList.init.applyAll (ProductList.loadProducts fun _ => lastFetch first cs) := by
  induction cs using List.reverseRecOn with
  | nil =>
    obtain ⟨f1, f2, f3, _, _⟩ := step_fetchSettled mount first
    have hl : mount.list.loading = true := rfl
    have hlist := step_fetchSettled_list mount first hl
    simp only [run, scenario, List.flatMap_nil, List.foldl_cons, List.foldl_nil,
      List.length_nil, lastFetch, List.getLast?_nil]
    refine ⟨f1, f2, ?_, ?_⟩
    · rw [f3]; decide
    · rw [hlist]
      rfl
  | append_singleton cs c ih =>
    have hcs : ∀ d ∈ cs, (jsTrim d.1).length ≠ 0 := fun d hd =>
      h d (List.mem_append_left _ hd)
    have hc : (jsTrim c.1).length ≠ 0 := h c (by simp)
    rw [List.length_append, List.length_singleton] at hlen
    obtain ⟨i1, i2, i3, _⟩ := ih hcs (by omega)
    have hsplit : scenario first (cs ++ [c])
        = scenario first cs ++ creation c.1 c.2.1 c.2.2 := by
      simp [scenario, List.flatMap_append]
    have hlast : lastFetch first (cs ++ [c]) = c.2.2 := by
      simp [lastFetch]
    obtain ⟨k1, k2, k3, k4⟩ := foldl_step_creation (run (scenario first cs)) c.1 c.2.1 c.2.2 hc
      (by rw [i1]; omega) (by rw [i1, i2])
    have hrun : run (scenario first (cs ++ [c]))
        = (creation c.1 c.2.1 c.2.2).foldl step (run (scenario first cs)) := by
      rw [hsplit]
      simp only [run, List.foldl_append]
    rw [hrun, hlast, List.length_append, List.length_singleton]
    refine ⟨by omega, by omega, by omega, k4⟩

end App

namespace App

/-- C6. The refresh counter starts at 0 and the first render issues one fetch;
`handleProductCreated` increments a counter below `2^53` by exactly 1 whatever product it is
given; after any sequence of events (also with several creates pending at once) the
counter equals the number of `onProductCreated` notifications as long as these are at most
`2^53`, no more than counter + 1 fetches were issued, the mounted list instance has called
`fetchProducts` exactly once and no instance more than once; and after the initial display
followed by k creations with non-blank names, each settled and rendered before the next
(k at most `2^53`), the counter is k, `fetchProducts` was called exactly k + 1 times and the
list shown is the one a fresh instance shows for the outcome of the last fetch. -/
theorem refresh_counter_drives_fetches :
    mount.refreshKey = 0 ∧
    fetchCalls mount = 1 ∧
    (∀ (created : Product) (k : Nat), k < 2 ^ 53 → handleProductCreated created k = k + 1) ∧
    (∀ evs : List Event,
      (notifications (run evs) ≤ 2 ^ 53 → (run evs).refreshKey = notifications (run evs)) ∧
      fetchCalls (run evs) ≤ (run evs).refreshKey + 1 ∧
      fetchCallsFor (run evs) (run evs).listKey = 1 ∧
      ∀ key, fetchCallsFor (run evs) key ≤ 1) ∧
    (∀ (first : Except JsError (List Product))
       (cs : List (String × Product × Except JsError (List Product))),
      (∀ c ∈ cs, (jsTrim c.1).length ≠ 0) → cs.length ≤ 2 ^ 53 →
        (run (scenario first cs)).refreshKey = cs.length ∧
        fetchCalls (run (scenario first cs)) = cs.length + 1 ∧
        (run (scenario first cs)).list
          = ProductList.init.applyAll
              (ProductList.loadProducts fun _ => lastFetch first cs)) := by
  refine ⟨rfl, by decide, fun _ k hk => jsAddOne_of_lt k hk, ?_, ?_⟩
  · intro evs
    obtain ⟨f1, f2, f3, f4, _⟩ := foldl_step_fetch_facts evs mount mount_fetch_facts
    have hc := foldl_step_counter evs mount (by decide)
    refine ⟨?_, ?_, f3, f4⟩
    · intro hn
      unfold run
      rw [hc]
      exact Nat.min_eq_left hn
    · unfold run
      omega
  · intro first cs h hlen
    obtain ⟨r1, _, r3, r4⟩ := run_scenario first cs h hlen
    exact ⟨r1, r3, r4⟩

/-- C6 at the example scenario: the first fetch returns `Product 1`, the user creates
`New Product`, the second fetch returns both; the fetch count is 2 and the list shows the
two products, the second one `New Product`. -/
theorem refresh_counter_drives_fetches_witness :
    (∀ c ∈ [("New Product",
        (⟨2, "New Product", "2025-11-17T12:00:00", "2025-11-17T12:00:00"⟩ : Product),
        (Except.ok [⟨1, "Product 1", "2025-11-17T10:00:00", "2025-11-17T10:00:00"⟩,
          ⟨2, "New Product", "2025-11-17T12:00:00", "2025-11-17T12:00:00"⟩] :
          Except JsError (List Product)))],
      (jsTrim c.1).length ≠ 0) ∧
    [("New Product",
        (⟨2, "New Product", "2025-11-17T12:00:00", "2025-11-17T12:00:00"⟩ : Product),
        (Except.ok [⟨1, "Product 1", "2025-11-17T10:00:00", "2025-11-17T10:00:00"⟩,
          ⟨2, "New Product", "2025-11-17T12:00:00", "2025-11-17T12:00:00"⟩] :
          Except JsError (List Product)))].length ≤ 2 ^ 53 ∧
    fetchCalls (run (scenario
      (.ok [⟨1, "Product 1", "2025-11-17T10:00:00", "2025-11-17T10:00:00"⟩])
      [("New Product", ⟨2, "New Product", "2025-11-17T12:00:00", "2025-11-17T12:00:00"⟩,
        .ok [⟨1, "Product 1", "2025-11-17T10:00:00", "2025-11-17T10:00:00"⟩,
          ⟨2, "New Product", "2025-11-17T12:00:00", "2025-11-17T12:00:00"⟩])])) = 2 ∧
    (ProductList.render (run (scenario
      (.ok [⟨1, "Product 1", "2025-11-17T10:00:00", "2025-11-17T10:00:00"⟩])
      [("New Product", ⟨2, "New Product", "2025-11-17T12:00:00", "2025-11-17T12:00:00"⟩,
        .ok [⟨1, "Product 1", "2025-11-17T10:00:00", "2025-11-17T10:00:00"⟩,
          ⟨2, "New Product", "2025-11-17T12:00:00", "2025-11-17T12:00:00"⟩])])).list
      ).items
      = [.elem "li" (some 1) [.text "ID: ", .num 1, .text " - ", .text "Product 1"],
         .elem "li" (some 2) [.text "ID: ", .num 2, .text " - ", .text "New Product"]] := by
  have hname : ∀ c ∈ [("New Product",
        (⟨2, "New Product", "2025-11-17T12:00:00", "2025-11-17T12:00:00"⟩ : Product),
        (Except.ok [⟨1, "Product 1", "2025-11-17T10:00:00", "2025-11-17T10:00:00"⟩,
          ⟨2, "New Product", "2025-11-17T12:00:00", "2025-11-17T12:00:00"⟩] :
          Except JsError (List Product)))],
      (jsTrim c.1).length ≠ 0 := by
    intro c hc
    rw [List.mem_singleton] at hc
    subst hc
    decide
  obtain ⟨_, h2, h3⟩ := refresh_counter_drives_fetches.2.2.2.2 _ _ hname (by decide)
  refine ⟨hname, by decide, h2, ?_⟩
  rw [h3]
  rfl

end App

/-! ## The API client -/

namespace productService

/-- C7. The service is a transparent wrapper over the transport.  `fetchProducts` leaves the
world as exactly one GET of `/api/products` leaves it and `createProduct(input)` as
exactly one POST of `input` to `/api/products` leaves it, for any `input`; each returns the
`data` of a resolved response and rejects with the very error of a rejected one.  On a
recording transport the record grows by that single request, with the body unchanged. -/
theorem service_is_transparent_wrapper {ω β δ ε : Type}
    (axiosGet : String → ω → Except ε (Response δ) × ω)
    (axiosPost : String → β → ω → Except ε (Response δ) × ω) (input : β) (w : ω) :
    (fetchProducts axiosGet w).2 = (axiosGet "/api/products" w).2 ∧
    (fetchProducts axiosGet w).1
      = (axiosGet "/api/products" w).1.map (fun response => response.data) ∧
    (createProduct axiosPost input w).2 = (axiosPost "/api/products" input w).2 ∧
    (createProduct axiosPost input w).1
      = (axiosPost "/api/products" input w).1.map (fun response => response.data) ∧
    (∀ (response : Response δ) (record : List (Request β)),
      fetchProducts (recordingGet (.ok response : Except ε (Response δ))) record
        = (.ok response.data, record ++ [.get "/api/products"]) ∧
      createProduct (recordingPost (.ok response : Except ε (Response δ))) input record
        = (.ok response.data, record ++ [.post "/api/products" input])) ∧
    (∀ (error : ε) (record : List (Request β)),
      fetchProducts (recordingGet (.error error : Except ε (Response δ))) record
        = (.error error, record ++ [.get "/api/products"]) ∧
      createProduct (recordingPost (.error error : Except ε (Response δ))) input record
        = (.error error, record ++ [.post "/api/products" input])) := by
  refine ⟨?_, ?_, ?_, ?_, fun _ _ => ⟨rfl, rfl⟩, fun _ _ => ⟨rfl, rfl⟩⟩
  · unfold fetchProducts
    rcases axiosGet "/api/products" w with ⟨_ | _, _⟩ <;> rfl
  · unfold fetchProducts
    rcases axiosGet "/api/products" w with ⟨_ | _, _⟩ <;> rfl
  · unfold createProduct
    rcases axiosPost "/api/products" input w with ⟨_ | _, _⟩ <;> rfl
  · unfold createProduct
    rcases axiosPost "/api/products" input w with ⟨_ | _, _⟩ <;> rfl

end productService

/-! ## The create form: typing and the submitting flag -/

namespace ProductForm

/-- C8. A change event with value `v` (any string, also the empty one) makes no service
call; when an error is shown it sets the input to `v` and the error to `null`, so that no
error is shown any more; when no error is shown it sets the input to `v` and leaves `error`
and `isSubmitting` as they were. -/
theorem handleNameChange_clears_error (s : State) (v : String) :
    createCalls (handleNameChange s.error v) = [] ∧
    ((render s).errorBox ≠ none →
      s.applyAll (handleNameChange s.error v)
        = { name := v, error := none, isSubmitting := s.isSubmitting } ∧
      (render (s.applyAll (handleNameChange s.error v))).errorBox = none) ∧
    ((render s).errorBox = none →
      s.applyAll (handleNameChange s.error v)
        = { name := v, error := s.error, isSubmitting := s.isSubmitting }) := by
  cases he : jsTruthy s.error
  · simp [handleNameChange, he, createCalls, render, State.applyAll, State.apply]
  · have hsome : s.error ≠ none := by
      intro hn
      rw [hn] at he
      exact Bool.noConfusion he
    have hnone : jsTruthy none = false := rfl
    simp [handleNameChange, he, createCalls, render, State.applyAll, State.apply, hnone,
      hsome]

/-- C8 at a concrete input: the error of a failed create is shown and the user empties the
input. -/
theorem handleNameChange_clears_error_witness :
    (render (State.mk "Test" (some createFailedMessage) false)).errorBox ≠ none ∧
    (State.mk "Test" (some createFailedMessage) false).applyAll
        (handleNameChange (State.mk "Test" (some createFailedMessage) false).error "")
      = { name := "", error := none
          isSubmitting := (State.mk "Test" (some createFailedMessage) false).isSubmitting } ∧
    (render ((State.mk "Test" (some createFailedMessage) false).applyAll
      (handleNameChange (State.mk "Test" (some createFailedMessage) false).error ""))).errorBox
      = none :=
  ⟨by decide,
   (handleNameChange_clears_error (State.mk "Test" (some createFailedMessage) false) "").2.1
     (by decide)⟩

/-- C9. For a submit with a name whose trimmed value is not empty: `setIsSubmitting(true)`
is among the actions that precede the `createProduct` call, so the flag is `true` before
the call; while the promise is pending the flag is `true` and input and button are
disabled; a change event never touches the flag; and once the promise settled, resolved or
rejected, from whatever state the form is in, the flag is `false` and input and button are
enabled; in particular the handler run to completion ends with the flag `false`. -/
theorem isSubmitting_brackets_create (onProductCreated : Callback)
    (createProduct : ProductInput → Except JsError Product) (s : State)
    (hname : (jsTrim s.name).length ≠ 0) :
    (handleSubmitSync s.name).1
      = [.preventDefault, .setIsSubmitting true, .setError none]
        ++ [.createProduct { name := jsTrim s.name }] ∧
    (s.applyAll [.preventDefault, .setIsSubmitting true, .setError none]).isSubmitting
      = true ∧
    (s.applyAll (handleSubmitSync s.name).1).isSubmitting = true ∧
    (render (s.applyAll (handleSubmitSync s.name).1)).inputDisabled = true ∧
    (render (s.applyAll (handleSubmitSync s.name).1)).buttonDisabled = true ∧
    (∀ (t : State) (v : String),
      (t.applyAll (handleNameChange t.error v)).isSubmitting = t.isSubmitting) ∧
    (∀ (t : State) (outcome : Except JsError Product),
      (t.applyAll (handleSubmitSettled onProductCreated outcome)).isSubmitting = false ∧
      (render (t.applyAll (handleSubmitSettled onProductCreated outcome))).inputDisabled
        = false ∧
      (render (t.applyAll (handleSubmitSettled onProductCreated outcome))).buttonDisabled
        = false) ∧
    (s.applyAll (handleSubmit onProductCreated createProduct s.name)).isSubmitting
      = false := by
  have hsettled : ∀ (t : State) (outcome : Except JsError Product),
      (t.applyAll (handleSubmitSettled onProductCreated outcome)).isSubmitting = false := by
    intro t outcome
    cases outcome with
    | error err => rfl
    | ok created =>
      cases onProductCreated with
      | none => rfl
      | some callback =>
        cases hcb : callback created <;>
          simp [handleSubmitSettled, hcb, catchFinally, State.applyAll, State.apply]
  rw [handleSubmit_nonblank _ createProduct s.name hname, handleSubmitSync_nonblank s.name hname]
  refine ⟨rfl, rfl, rfl, rfl, rfl, ?_, ?_, ?_⟩
  · intro t v
    cases he : jsTruthy t.error <;>
      simp [handleNameChange, he, State.applyAll, State.apply]
  · intro t outcome
    have h := hsettled t outcome
    simp [render, h]
  · have h := hsettled (s.applyAll [.preventDefault, .setIsSubmitting true, .setError none,
      .createProduct { name := jsTrim s.name }]) (createProduct { name := jsTrim s.name })
    simpa [State.applyAll, List.foldl_append] using h

/-- C9 at the input of the test suite: `Test Product` is submitted, without a callback, and
the create call resolves. -/
theorem isSubmitting_brackets_create_witness :
    (jsTrim (State.mk "Test Product" none false).name).length ≠ 0 ∧
    ((State.mk "Test Product" none false).applyAll
      (handleSubmitSync (State.mk "Test Product" none false).name).1).isSubmitting = true ∧
    ((State.mk "Test Product" none false).applyAll
      (handleSubmit none (fun i => .ok ⟨1, i.name, "", ""⟩)
        (State.mk "Test Product" none false).name)).isSubmitting = false :=
  ⟨by decide,
   (isSubmitting_brackets_create none (fun i => .ok ⟨1, i.name, "", ""⟩)
      (State.mk "Test Product" none false) (by decide)).2.2.1,
   (isSubmitting_brackets_create none (fun i => .ok ⟨1, i.name, "", ""⟩)
      (State.mk "Test Product" none false) (by decide)).2.2.2.2.2.2.2⟩

end ProductForm

/-! ## The list view: the empty catalogue -/

namespace ProductList

/-- C10. After a fetch that resolved with the empty sequence, from any prior state,
`loading` is `false`, `error` is `null`, and the view is the single `div` with the text
`No products found.`: it does not show the error message and holds no `li`. -/
theorem render_empty_fetch (numberToString : Int → String) (s : State) :
    (s.applyAll (loadProducts fun _ => .ok [])).loading = false ∧
    (s.applyAll (loadProducts fun _ => .ok [])).error = none ∧
    render (s.applyAll (loadProducts fun _ => .ok []))
      = .elem "div" none [.text "No products found."] ∧
    (render (s.applyAll (loadProducts fun _ => .ok []))).textContent numberToString
      ≠ "Error loading products. Please try again later." ∧
    (render (s.applyAll (loadProducts fun _ => .ok []))).items = [] := by
  rw [applyAll_loadProducts_ok]
  have h : render { products := [], loading := false, error := none }
      = .elem "div" none [.text "No products found."] := rfl
  rw [h]
  refine ⟨rfl, rfl, rfl, ?_, rfl⟩
  intro hsame
  have htext : ("No products found." : String)
      = "Error loading products. Please try again later." := hsame
  exact absurd htext (by decide)

end ProductList

/-! ## The list view: the four states and the entry to loading -/

namespace ProductList

/-- The component function returns the JSX of the branch it reaches. -/
theorem render_eq_view (s : State) : render s = view s (branch s) := by
  unfold render branch
  split_ifs <;> rfl

/-- The cell `error` only ever holds `null` or the message of line 24: this holds initially
and is kept by both parts of `loadProducts`. -/
theorem error_null_or_message (s : State)
    (hs : s.error = none ∨ s.error = some loadFailedMessage)
    (outcome : Except JsError (List Product)) :
    init.error = none ∧
    (s.applyAll loadProductsSync).error = none ∧
    ((s.applyAll (loadProductsSettled outcome)).error = none ∨
      (s.applyAll (loadProductsSettled outcome)).error = some loadFailedMessage) := by
  refine ⟨rfl, rfl, ?_⟩
  cases outcome with
  | error err => exact Or.inr rfl
  | ok data => exact hs

/-- For an `error` cell holding `null` or the message of line 24, the four views are four
different trees. -/
theorem view_injective (s : State)
    (hs : s.error = none ∨ s.error = some loadFailedMessage) (k k' : Branch)
    (h : view s k = view s k') : k = k' := by
  have htext := congrArg (VNode.textContent fun _ => "") h
  rcases hs with he | he <;> cases k <;> cases k' <;>
    first
    | rfl
    | (exfalso
       simp only [view, he, Option.getD, VNode.textContent, VNode.textContentList,
         loadFailedMessage] at htext
       revert htext
       decide)
    | (exfalso
       simp [view] at h)

/-- C11. For every state of the component the function returns the JSX of exactly one of
the four branches, chosen in priority order: loading when `loading` is `true`; otherwise
error when `error` is truthy; otherwise empty when `products` has length 0; otherwise the
populated list.  For the values the `error` cell can hold (`null` or the message of line
24) truthy means not `null`, and the rendered tree is the view of that branch and of no
other. -/
theorem render_four_exclusive_states (s : State) :
    render s = view s (branch s) ∧
    (branch s = .loading ↔ s.loading = true) ∧
    (branch s = .error ↔ s.loading = false ∧ jsTruthy s.error = true) ∧
    (branch s = .empty ↔
      s.loading = false ∧ jsTruthy s.error = false ∧ s.products.length = 0) ∧
    (branch s = .populated ↔
      s.loading = false ∧ jsTruthy s.error = false ∧ s.products.length ≠ 0) ∧
    (s.error = none ∨ s.error = some loadFailedMessage →
      (jsTruthy s.error = true ↔ s.error ≠ none) ∧
      ∀ k, render s = view s k ↔ k = branch s) := by
  refine ⟨render_eq_view s, ?_, ?_, ?_, ?_, ?_⟩
  · unfold branch
    split_ifs <;> simp_all
  · unfold branch
    split_ifs <;> simp_all
  · unfold branch
    split_ifs <;> simp_all
  · unfold branch
    split_ifs <;> simp_all
  · intro hs
    constructor
    · rcases hs with he | he <;> rw [he]
      · exact ⟨fun h => Bool.noConfusion h, fun h => absurd rfl h⟩
      · exact ⟨fun _ => Option.noConfusion, fun _ => by decide⟩
    · intro k
      rw [render_eq_view]
      exact ⟨fun h => (view_injective s hs _ _ h).symm, fun h => by rw [h]⟩

/-- C11 at a concrete state: a failed fetch over a list that still holds a product; the
error branch is rendered and no other. -/
theorem render_four_exclusive_states_witness :
    ((State.mk [⟨1, "Product 1", "", ""⟩] false (some loadFailedMessage)).error = none ∨
      (State.mk [⟨1, "Product 1", "", ""⟩] false (some loadFailedMessage)).error
        = some loadFailedMessage) ∧
    branch (State.mk [⟨1, "Product 1", "", ""⟩] false (some loadFailedMessage)) = .error ∧
    ∀ k, render (State.mk [⟨1, "Product 1", "", ""⟩] false (some loadFailedMessage))
        = view (State.mk [⟨1, "Product 1", "", ""⟩] false (some loadFailedMessage)) k ↔
      k = branch (State.mk [⟨1, "Product 1", "", ""⟩] false (some loadFailedMessage)) :=
  ⟨Or.inr rfl, by decide,
   ((render_four_exclusive_states
      (State.mk [⟨1, "Product 1", "", ""⟩] false (some loadFailedMessage))).2.2.2.2.2
      (Or.inr rfl)).2⟩

/-- C12. The component enters loading by running `loadProducts` on the fresh cells of a
mount (its only call site is the mount effect, and a re-entry is a remount under a new
key).  The entry leaves `products` empty, `error` `null` and `loading` `true`, and calls
`fetchProducts` exactly once, as the last action before the `await`; `setError(null)` and
`setLoading(true)` are applied whatever the cells held.  In the page, for every prior state
(whatever products or error the replaced instance holds), the mounted instance has no
product and no error, is loading, shows the loading `div` with no `li`, and exactly one
more `fetchProducts` call is on record, made under the current key. -/
theorem loading_entry_clears_state_and_fetches_once (s : App.State) :
    init.applyAll loadProductsSync = { products := [], loading := true, error := none } ∧
    fetchCalls loadProductsSync = 1 ∧
    loadProductsSync.getLast? = some .fetchProducts ∧
    (∀ fetchProducts, fetchCalls (loadProducts fetchProducts) = 1) ∧
    (∀ t : State, (t.applyAll loadProductsSync).error = none ∧
      (t.applyAll loadProductsSync).loading = true) ∧
    App.step s .render = (if s.refreshKey = s.listKey then s else App.mountProductList s) ∧
    (App.mountProductList s).list = { products := [], loading := true, error := none } ∧
    App.fetchCalls (App.mountProductList s) = App.fetchCalls s + 1 ∧
    App.fetchCallsFor (App.mountProductList s) s.refreshKey
      = App.fetchCallsFor s s.refreshKey + 1 ∧
    render (App.mountProductList s).list
      = .elem "div" none [.text "Loading products..."] ∧
    (render (App.mountProductList s).list).items = [] := by
  refine ⟨rfl, by decide, rfl, ?_, fun _ => ⟨rfl, rfl⟩, rfl, rfl, ?_, ?_, rfl, rfl⟩
  · intro fetchProducts
    cases h : fetchProducts () <;> simp [loadProducts, h, loadProductsSync,
      loadProductsSettled, fetchCalls, List.countP_cons]
  · simp [App.mountProductList, loadProductsSync, App.fetchCalls, List.countP_append,
      List.countP_cons]
  · simp [App.mountProductList, loadProductsSync, App.fetchCallsFor, List.countP_append,
      List.countP_cons]

end ProductList

/-! ## The create form: a throwing callback and a missing callback -/

namespace ProductForm

/-- C13. For a name whose trimmed value is not empty and a `createProduct` that resolved with
`P`: when the supplied `onProductCreated` throws, the create call was made and the callback
was called with `P`, and the form ends with the input cleared to the empty string, the
error `Failed to create product. Please try again.` set and shown, and `isSubmitting`
`false`; when no callback is supplied, the form ends with the input cleared, no error set or
shown, `isSubmitting` `false`, and no callback call. -/
theorem handleSubmit_callback_throws_or_missing
    (createProduct : ProductInput → Except JsError Product) (s : State) (P : Product)
    (hname : (jsTrim s.name).length ≠ 0)
    (hok : createProduct { name := jsTrim s.name } = .ok P) :
    (∀ (callback : Product → Except JsError Unit) (err : JsError),
      callback P = .error err →
        createCalls (handleSubmit (some callback) createProduct s.name)
          = [{ name := jsTrim s.name }] ∧
        callbackCalls (handleSubmit (some callback) createProduct s.name) = [P] ∧
        s.applyAll (handleSubmit (some callback) createProduct s.name)
          = { name := "", error := some "Failed to create product. Please try again."
              isSubmitting := false } ∧
        (render (s.applyAll (handleSubmit (some callback) createProduct s.name))).errorBox
          = some "Failed to create product. Please try again.") ∧
    createCalls (handleSubmit none createProduct s.name) = [{ name := jsTrim s.name }] ∧
    callbackCalls (handleSubmit none createProduct s.name) = [] ∧
    errorSets (handleSubmit none createProduct s.name) = [none] ∧
    s.applyAll (handleSubmit none createProduct s.name)
      = { name := "", error := none, isSubmitting := false } ∧
    (render (s.applyAll (handleSubmit none createProduct s.name))).errorBox = none := by
  refine ⟨?_, ?_⟩
  · intro callback err hcb
    rw [handleSubmit_nonblank _ createProduct s.name hname, hok]
    simp [handleSubmitSettled, hcb, catchFinally, createCalls, callbackCalls, State.applyAll,
      State.apply, render, createFailedMessage, jsTruthy]
  · rw [handleSubmit_nonblank _ createProduct s.name hname, hok]
    simp [handleSubmitSettled, createCalls, callbackCalls, errorSets, State.applyAll,
      State.apply, render, jsTruthy]

/-- C13 at a concrete input: `Test Product` is created and the callback throws. -/
theorem handleSubmit_callback_throws_or_missing_witness :
    (jsTrim (State.mk "Test Product" none false).name).length ≠ 0 ∧
    (State.mk "Test Product" none false).applyAll
        (handleSubmit (some fun _ => .error ⟨some "callback failed", none, none⟩)
          (fun i => .ok ⟨1, i.name, "", ""⟩) (State.mk "Test Product" none false).name)
      = { name := "", error := some "Failed to create product. Please try again."
          isSubmitting := false } ∧
    (State.mk "Test Product" none false).applyAll
        (handleSubmit none (fun i => .ok ⟨1, i.name, "", ""⟩)
          (State.mk "Test Product" none false).name)
      = { name := "", error := none, isSubmitting := false } :=
  ⟨by decide,
   ((handleSubmit_callback_throws_or_missing (fun i => .ok ⟨1, i.name, "", ""⟩)
      (State.mk "Test Product" none false) ⟨1, "Test Product", "", ""⟩ (by decide) rfl).1
      (fun _ => .error ⟨some "callback failed", none, none⟩)
      ⟨some "callback failed", none, none⟩ rfl).2.2.1,
   (handleSubmit_callback_throws_or_missing (fun i => .ok ⟨1, i.name, "", ""⟩)
      (State.mk "Test Product" none false) ⟨1, "Test Product", "", ""⟩ (by decide)
      rfl).2.2.2.2.1⟩

end ProductForm
